import Mathlib

set_option autoImplicit false

/-!
Verification of the image-scan admission webhook core
(`pkg/anchore/client.go` and the admission-server helper) against its
design document. The remote Anchore engine is abstracted as the responses
it hands back: every client function is embedded as a pure function of the
(already JSON-decoded) responses it would receive, and Go's two failure
channels are kept apart — an `error` return value is modelled as an
`Option String` component of the returned tuple, while a runtime panic
(out-of-range index, nil dereference) is a separate constructor, since it
unwinds the stack instead of returning.
-/

/-- Outcome of a Go function call: a normal return carrying the Go return
value(s), or a runtime panic, which in Go unwinds the stack rather than
returning to the caller. -/
inductive GoVal (α : Type) where
  | ret (a : α)
  | panic (msg : String)
deriving Repr, DecidableEq

/-- An HTTP response from the remote engine: status code and body. Bodies are
kept in already-decoded form, the byte-level JSON step being folded into the
`Unmarshalled` wrapper below. -/
structure HttpResponse (β : Type) where
  status : Nat
  body : β
deriving Repr, DecidableEq

/-- What the `http.Client.Do` / `ioutil.ReadAll` pair can produce for one
request: a transport-level failure, or a response. Both Go read-side failure
points produce the same wrapped error message, so one constructor suffices. -/
inductive TransportResult (β : Type) where
  | failure (msg : String)
  | response (r : HttpResponse β)
deriving Repr, DecidableEq

/-- The `errNotFound` constant of client.go (line 36). -/
def errNotFound : String := "response from Anchore: 404"

/-- Embedding of `AnchoreClient.anchoreRequest` (client.go 38-66): transport
failures are wrapped, a non-200 status becomes the error string
`"response from Anchore: <code>"`, and only a 200 response yields a body.
URL, auth header and request body do not affect the returned value and are
abstracted into the given `TransportResult`. -/
def anchoreRequest {β : Type} (t : TransportResult β) : Except String β :=
  match t with
  | .failure msg => .error ("failed to complete request to Anchore: " ++ msg)
  | .response r =>
    if r.status ≠ 200 then .error ("response from Anchore: " ++ toString r.status)
    else .ok r.body

/-- Result of `json.Unmarshal` on a response body: an error message or a value
of the expected shape. -/
abbrev Unmarshalled (α : Type) : Type := Except String α

/-- Modelled from the spec: the image record returned by `GET /images` (the
anchore package's type definitions file is not under src/). Only the digest
field — the one field `getDigest` reads — is represented. -/
structure Image where
  imageDigest : String
deriving Repr, DecidableEq

/-- The decoded response to one `GET /images` digest-resolution request. -/
abbrev DigestResp : Type := TransportResult (Unmarshalled (List Image))

/-- Embedding of `AnchoreClient.getDigest` (client.go 134-155): on success the
first image record's digest is returned with no emptiness check, so a 200
response decoding to an empty list hits the unguarded `images[0]` index and
panics. Error returns carry the Go zero value `""` as the digest. -/
def getDigest (resp : DigestResp) : GoVal (String × Option String) :=
  match anchoreRequest resp with
  | .error e => .ret ("", some e)
  | .ok decoded =>
    match decoded with
    | .error e => .ret ("", some ("failed to unmarshal JSON from response: " ++ e))
    | .ok [] => .panic "index out of range"
    | .ok (img :: _) => .ret (img.imageDigest, none)

/-- The response to the registration `POST /images` request; its body is
discarded by `addImage`, so it is typed `Unit`. -/
abbrev AddResp : Type := TransportResult Unit

/-- Embedding of `AnchoreClient.addImage` (client.go 157-166): only the error
of the POST matters; `some e` models Go's non-nil error return. -/
def addImage (resp : AddResp) : Option String :=
  match anchoreRequest resp with
  | .error e => some e
  | .ok _ => none

/-- The observable outcome of `GetImageDigest`: the returned (digest, error)
pair or panic, together with how many `getDigest` attempts were made and how
many 1-second sleeps were taken between attempts. -/
structure DigestOutcome where
  result : GoVal (String × Option String)
  attempts : Nat
  sleeps : Nat
deriving Repr, DecidableEq

/-- The retry loop of `GetImageDigest` (client.go 175-189). `rs i` is the
engine's response to the (i+1)-th `getDigest` call; `count` mirrors the Go
counter and `remaining` equals `5 - count`, so the loop returns after the
attempt made when `count >= 5`. A sleep precedes every retry, hence `sleeps`
equals the final `count` on every exit path. A panic in `getDigest`
propagates at once. -/
def getDigestLoop (rs : Nat → DigestResp) (count : Nat) : Nat → DigestOutcome
  | 0 => ⟨getDigest (rs count), count + 1, count⟩
  | remaining + 1 =>
    match getDigest (rs count) with
    | .panic m => ⟨.panic m, count + 1, count⟩
    | .ret (d, none) => ⟨.ret (d, none), count + 1, count⟩
    | .ret (_, some _) => getDigestLoop rs (count + 1) remaining

/-- Embedding of `AnchoreClient.GetImageDigest` (client.go 168-190): register
the image, then resolve its digest through the bounded retry loop. When
`addImage` fails the Go named return values are `("", err)` and no resolution
attempt is made. -/
def GetImageDigest (addResp : AddResp) (rs : Nat → DigestResp) : DigestOutcome :=
  match addImage addResp with
  | some e => ⟨.ret ("", some e), 0, 0⟩
  | none => getDigestLoop rs 0 5

/-- Modelled from the spec: the ScanReport record (the anchore package's type
definitions file is not under src/). Only the status field — the one field
`getStatus` reads — is represented. -/
structure ScanReport where
  status : String
deriving Repr, DecidableEq

/-- Mapping from full tag string to a sequence of scan reports. Go maps are
modelled as association lists: `List.lookup` models map indexing, and the
head pair models `reflect.ValueOf(..).MapKeys()[0]` (Go's iteration order is
unspecified; no claim settled here depends on which key comes first). -/
abbrev TagMap : Type := List (String × List ScanReport)

/-- The ScanReportCollection response shape: a sequence of mappings from
digest to `TagMap`. -/
abbrev ScanReports : Type := List (List (String × TagMap))

/-- The decoded response to one `GET /images/<digest>/check` request. -/
abbrev ReportResp : Type := TransportResult (Unmarshalled ScanReports)

/-- Embedding of `AnchoreClient.getReport` (client.go 68-116). The
`errNotFound` branch (line 72) only logs before returning the same
`(nil, err)` pair as the generic error branch, so both collapse to one case
here. Zero entries, multiple entries and a missing digest key are explicit
integrity errors; an empty tag map or an empty report list under the first
tag key hit unchecked `[0]` indexing and panic. -/
def getReport (digest : String) (resp : ReportResp) : GoVal (Option ScanReport × Option String) :=
  match anchoreRequest resp with
  | .error e => .ret (none, some e)
  | .ok decoded =>
    match decoded with
    | .error e => .ret (none, some e)
    | .ok result =>
      match result with
      | [] => .ret (none, some "Scan report list is empty")
      | _ :: _ :: _ => .ret (none, some "Unexpected scan report: multiple entries")
      | [entry] =>
        match entry.lookup digest with
        | none => .ret (none, some "Digest in the scan report does not match")
        | some tagMap =>
          match tagMap with
          | [] => .panic "index out of range"
          | (_, reports) :: _ =>
            match reports with
            | [] => .panic "index out of range"
            | r :: _ => .ret (some r, none)

/-- Embedding of Go `strings.ToLower`: character-wise lowering of the string
(the status strings compared by the client are ASCII). Defined over the
character list so that concrete instances evaluate by reduction, which
`String.toLower`'s internal recursion does not allow. -/
def stringToLower (s : String) : String := ⟨s.data.map Char.toLower⟩

/-- Embedding of `AnchoreClient.getStatus` (client.go 118-132): propagate any
`getReport` error as `(false, err)`, then compare the report's lower-cased
status against "pass". The `(none, none)` case cannot be produced by
`getReport` but, were it reached, Go would dereference a nil pointer. -/
def getStatus (digest : String) (resp : ReportResp) : GoVal (Bool × Option String) :=
  match getReport digest resp with
  | .panic m => .panic m
  | .ret (_, some e) => .ret (false, some e)
  | .ret (some result, none) =>
    if stringToLower result.status = "pass" then .ret (true, none)
    else .ret (false, some "Scan result is FAILED")
  | .ret (none, none) => .panic "nil pointer dereference"

/-- Embedding of `AnchoreClient.CheckImage` (client.go 192-198): any
`GetImageDigest` error is replaced by the fixed message
"Unable to obtain image digest"; otherwise the verdict step decides. The
image string itself only feeds the request URLs, which the response
abstractions absorb. -/
def CheckImage (addResp : AddResp) (rs : Nat → DigestResp) (reportResp : ReportResp) :
    GoVal (Bool × Option String) :=
  match (GetImageDigest addResp rs).result with
  | .panic m => .panic m
  | .ret (_, some _) => .ret (false, some "Unable to obtain image digest")
  | .ret (d, none) => getStatus d reportResp

/-- Whether a `getDigest`-shaped outcome is a normal return carrying a
non-nil error. -/
def isErrRet : GoVal (String × Option String) → Bool
  | .ret (_, some _) => true
  | _ => false

/-- Modelled from the spec: the Admission Evaluator (package opaimagescanner,
not under src/). Per §4.3, for each image reference in declaration order it
invokes CheckImage; the pod is admitted iff all images pass, and the first
failing image's reason is the pod-level deny reason. `check` abstracts the
per-image CheckImage outcome as an (allowed, reason) pair. -/
def evaluatePod (check : String → Bool × Option String) : List String → Bool × Option String
  | [] => (true, none)
  | img :: rest =>
    match check img with
    | (true, _) => evaluatePod check rest
    | (false, reason) => (false, reason)

/-- The fields of `v1beta1.AdmissionResponse` that `toAdmissionResponse`
populates (src/unnamed/part_000, lines 21-29): UID, Allowed, and
Result.Message. -/
structure AdmissionResponse where
  uid : String
  allowed : Bool
  message : String
deriving Repr, DecidableEq

/-- Embedding of `toAdmissionResponse` (src/unnamed/part_000, lines 21-29).
`errMsg` stands for `err.Error()` of the non-nil error argument. -/
def toAdmissionResponse (uid : String) (errMsg : String) : AdmissionResponse :=
  ⟨uid, false, errMsg⟩

/-- A successful registration response. -/
def okAddResp : AddResp := .response ⟨200, ()⟩

/-- A digest-resolution response with status 404, the one `anchoreRequest`
turns into `errNotFound`. -/
def notFoundResp : DigestResp := .response ⟨404, .ok []⟩

/-- A digest-resolution response with status 500: an error of the
RemoteUnavailable kind, distinct from NotFound. -/
def unavailableResp : DigestResp := .response ⟨500, .ok []⟩

/-- A successful digest-resolution response. -/
def goodDigestResp : DigestResp := .response ⟨200, .ok [⟨"sha256:abc"⟩]⟩

/-- Engine behaviour whose first resolution attempt fails with status 500 and
whose later attempts succeed. -/
def rsRetryDemo : Nat → DigestResp
  | 0 => unavailableResp
  | _ => goodDigestResp

/-- A report response: status 200, one entry keyed by the queried digest, one
tag key, one report with the given status. -/
def mkPassResp (s : String) : ReportResp :=
  .response ⟨200, .ok [[("sha256:d", [("docker.io/library/img:1", [⟨s⟩])])]]⟩

/-- A report response with status 200 whose body decodes to the given
collection. -/
def mkReportResp (col : ScanReports) : ReportResp := .response ⟨200, .ok col⟩

/-- A per-image check outcome table: image "B" fails with the scan-failed
reason, every other image passes. -/
def demoCheck : String → Bool × Option String
  | "B" => (false, some "Scan result is FAILED")
  | _ => (true, none)

/-! ### Helper lemmas -/

theorem isErrRet_iff (v : GoVal (String × Option String)) :
    isErrRet v = true ↔ ∃ s e, v = .ret (s, some e) := by
  cases v with
  | ret p =>
    obtain ⟨s, e⟩ := p
    cases e <;> simp [isErrRet]
  | panic m => simp [isErrRet]

theorem getDigestLoop_step (rs : Nat → DigestResp) (count remaining : Nat)
    (h : isErrRet (getDigest (rs count)) = true) :
    getDigestLoop rs count (remaining + 1) = getDigestLoop rs (count + 1) remaining := by
  rcases (isErrRet_iff _).1 h with ⟨s, e, hv⟩
  simp [getDigestLoop, hv]

theorem getDigestLoop_ok (rs : Nat → DigestResp) (count remaining : Nat) (d : String)
    (h : getDigest (rs count) = .ret (d, none)) :
    getDigestLoop rs count remaining = ⟨.ret (d, none), count + 1, count⟩ := by
  cases remaining <;> simp [getDigestLoop, h]

theorem getDigestLoop_bounds (rs : Nat → DigestResp) :
    ∀ remaining count, (getDigestLoop rs count remaining).attempts ≤ count + remaining + 1 ∧
      (getDigestLoop rs count remaining).sleeps + 1 = (getDigestLoop rs count remaining).attempts := by
  intro remaining
  induction remaining with
  | zero => intro count; simp [getDigestLoop]
  | succ n ih =>
    intro count
    cases hv : getDigest (rs count) with
    | panic m => simp [getDigestLoop, hv]
    | ret p =>
      obtain ⟨d, e⟩ := p
      cases e with
      | none => simp [getDigestLoop, hv]
      | some e =>
        have h := ih (count + 1)
        simp only [getDigestLoop, hv]
        exact ⟨by omega, h.2⟩

theorem getStatus_no_true_err (digest : String) (resp : ReportResp) (b : Bool) (e : String)
    (h : getStatus digest resp = .ret (b, some e)) : b = false := by
  unfold getStatus at h
  cases hr : getReport digest resp with
  | panic m => rw [hr] at h; exact absurd h (by simp)
  | ret p =>
    obtain ⟨r, err⟩ := p
    rw [hr] at h
    cases err with
    | some e2 => simp at h; exact h.1
    | none =>
      cases r with
      | none => simp at h
      | some report =>
        by_cases hp : stringToLower report.status = "pass" <;> simp [hp] at h
        exact h.1

/-! ### Claim theorems -/

/-- Claim C1: whenever a scan report is obtained, getStatus returns
`(true, nil)` if and only if the report's status, compared case-insensitively
(lower-cased), equals "pass"; for every other status it returns `(false, err)`
where the error carries the generic reason "Scan result is FAILED". -/
theorem getStatus_pass_iff (digest : String) (resp : ReportResp) (report : ScanReport)
    (h : getReport digest resp = .ret (some report, none)) :
    (getStatus digest resp = .ret (true, none) ↔ stringToLower report.status = "pass") ∧
    (stringToLower report.status ≠ "pass" →
      getStatus digest resp = .ret (false, some "Scan result is FAILED")) := by
  constructor
  · constructor
    · intro hs
      by_contra hne
      simp [getStatus, h, hne] at hs
    · intro hp
      simp [getStatus, h, hp]
  · intro hne
    simp [getStatus, h, hne]

/-- Witness for C1: a concrete pass report yields an allow verdict. -/
theorem getStatus_pass_iff_witness :
    getStatus "sha256:d" (mkPassResp "PASS") = .ret (true, none) :=
  ((getStatus_pass_iff "sha256:d" (mkPassResp "PASS") ⟨"PASS"⟩ rfl).1).2 rfl

/-- Claim C6: on a 200 response whose body decodes to a collection with zero
entries, with more than one entry, or with a single entry lacking the queried
digest key, getReport returns the respective descriptive integrity error with
a nil report pointer. -/
theorem getReport_integrity (digest : String) (col : ScanReports) :
    (col = [] →
      getReport digest (mkReportResp col) = .ret (none, some "Scan report list is empty")) ∧
    (∀ e1 e2 rest, col = e1 :: e2 :: rest →
      getReport digest (mkReportResp col)
        = .ret (none, some "Unexpected scan report: multiple entries")) ∧
    (∀ entry, col = [entry] → entry.lookup digest = none →
      getReport digest (mkReportResp col)
        = .ret (none, some "Digest in the scan report does not match")) := by
  refine ⟨?_, ?_, ?_⟩
  · rintro rfl; rfl
  · rintro e1 e2 rest rfl; rfl
  · rintro entry rfl hl
    simp [getReport, mkReportResp, anchoreRequest, hl]

/-- Witness for C6: the empty collection yields the empty-list integrity
error. -/
theorem getReport_integrity_witness :
    getReport "sha256:d" (mkReportResp []) = .ret (none, some "Scan report list is empty") :=
  (getReport_integrity "sha256:d" []).1 rfl

/-- Claim C7: at the failing input — a single collection entry keyed by the
queried digest whose tag map is empty — getReport does not return a
descriptive error value: the unchecked MapKeys()[0] indexing panics. -/
theorem getReport_empty_tagmap_panics :
    getReport "sha256:d" (mkReportResp [[("sha256:d", [])]]) = .panic "index out of range" := rfl

/-- Claim C8: every response with a status other than 200 makes anchoreRequest
return an error and never a body, a 404 status produces exactly the
`errNotFound` error string the code recognizes, and getReport surfaces a 404
(NotFound) of the report query directly as its returned error, with no
internal retry. -/
theorem anchoreRequest_non200_and_notFound {β : Type} (status : Nat) (body : β)
    (digest : String) (reportBody : Unmarshalled ScanReports) (h : status ≠ 200) :
    anchoreRequest (.response ⟨status, body⟩)
      = .error ("response from Anchore: " ++ toString status) ∧
    anchoreRequest (.response (⟨404, body⟩ : HttpResponse β)) = .error errNotFound ∧
    getReport digest (.response ⟨404, reportBody⟩) = .ret (none, some errNotFound) := by
  have h404 : "response from Anchore: " ++ toString (404 : Nat) = errNotFound := by decide
  refine ⟨by simp [anchoreRequest, h], by simp [anchoreRequest, h404], by simp [getReport, anchoreRequest, h404]⟩

/-- Witness for C8: a concrete 500 response is an error. -/
theorem anchoreRequest_non200_and_notFound_witness :
    anchoreRequest (.response ⟨500, ()⟩)
      = .error ("response from Anchore: " ++ toString 500) :=
  (anchoreRequest_non200_and_notFound 500 () "sha256:d" (.ok []) (by decide)).1

/-- Claim C9: getDigest returns the first image record's digest (with nil
error) on any 200 response decoding to a non-empty list, and on a 200
response decoding to the empty list the unguarded `images[0]` index panics,
so the function returns neither a digest nor an error value. -/
theorem getDigest_head_unguarded :
    (∀ (img : Image) (rest : List Image),
      getDigest (.response ⟨200, .ok (img :: rest)⟩) = .ret (img.imageDigest, none)) ∧
    getDigest (.response ⟨200, .ok ([] : List Image)⟩) = .panic "index out of range" :=
  ⟨fun _ _ => rfl, rfl⟩

/-- Claim C10: for every request UID and error message, toAdmissionResponse
produces a response with Allowed false, the given UID, and the error's
message; it can never produce an allowed response. -/
theorem toAdmissionResponse_denies (uid errMsg : String) :
    (toAdmissionResponse uid errMsg).allowed = false ∧
    (toAdmissionResponse uid errMsg).uid = uid ∧
    (toAdmissionResponse uid errMsg).message = errMsg :=
  ⟨rfl, rfl, rfl⟩

/-- Claim C2: GetImageDigest performs at most 6 resolution attempts, sleeps
one second between consecutive attempts (sleeps = attempts - 1 whenever the
loop runs), returns the digest of the first successful attempt immediately (after k
failed attempts the successful attempt k+1 ends the loop), and when every
attempt fails with an error it returns the sixth attempt's
error after exactly 6 attempts and 5 sleeps, terminating. -/
theorem getImageDigest_bounded_retry (addResp : AddResp) (rs : Nat → DigestResp) :
    (GetImageDigest addResp rs).attempts ≤ 6 ∧
    (addImage addResp = none →
      (GetImageDigest addResp rs).sleeps + 1 = (GetImageDigest addResp rs).attempts) ∧
    (∀ d k, addImage addResp = none → k ≤ 5 →
      (∀ i, i < k → isErrRet (getDigest (rs i)) = true) →
      getDigest (rs k) = .ret (d, none) →
      GetImageDigest addResp rs = ⟨.ret (d, none), k + 1, k⟩) ∧
    (addImage addResp = none → (∀ i, i ≤ 5 → isErrRet (getDigest (rs i)) = true) →
      GetImageDigest addResp rs = ⟨getDigest (rs 5), 6, 5⟩) := by
  cases hAdd : addImage addResp with
  | some e =>
    refine ⟨by simp [GetImageDigest, hAdd], ?_, ?_, ?_⟩ <;>
      simp [hAdd]
  | none =>
    have hG : GetImageDigest addResp rs = getDigestLoop rs 0 5 := by
      simp [GetImageDigest, hAdd]
    refine ⟨?_, ?_, ?_, ?_⟩
    · rw [hG]; exact (getDigestLoop_bounds rs 5 0).1
    · intro _; rw [hG]; exact (getDigestLoop_bounds rs 5 0).2
    · intro d k _ hk hErr hOk
      rw [hG]
      interval_cases k
      · exact getDigestLoop_ok rs 0 5 d hOk
      · calc getDigestLoop rs 0 5
            = getDigestLoop rs 1 4 := getDigestLoop_step rs 0 4 (hErr 0 (by omega))
          _ = ⟨.ret (d, none), 2, 1⟩ := getDigestLoop_ok rs 1 4 d hOk
      · calc getDigestLoop rs 0 5
            = getDigestLoop rs 1 4 := getDigestLoop_step rs 0 4 (hErr 0 (by omega))
          _ = getDigestLoop rs 2 3 := getDigestLoop_step rs 1 3 (hErr 1 (by omega))
          _ = ⟨.ret (d, none), 3, 2⟩ := getDigestLoop_ok rs 2 3 d hOk
      · calc getDigestLoop rs 0 5
            = getDigestLoop rs 1 4 := getDigestLoop_step rs 0 4 (hErr 0 (by omega))
          _ = getDigestLoop rs 2 3 := getDigestLoop_step rs 1 3 (hErr 1 (by omega))
          _ = getDigestLoop rs 3 2 := getDigestLoop_step rs 2 2 (hErr 2 (by omega))
          _ = ⟨.ret (d, none), 4, 3⟩ := getDigestLoop_ok rs 3 2 d hOk
      · calc getDigestLoop rs 0 5
            = getDigestLoop rs 1 4 := getDigestLoop_step rs 0 4 (hErr 0 (by omega))
          _ = getDigestLoop rs 2 3 := getDigestLoop_step rs 1 3 (hErr 1 (by omega))
          _ = getDigestLoop rs 3 2 := getDigestLoop_step rs 2 2 (hErr 2 (by omega))
          _ = getDigestLoop rs 4 1 := getDigestLoop_step rs 3 1 (hErr 3 (by omega))
          _ = ⟨.ret (d, none), 5, 4⟩ := getDigestLoop_ok rs 4 1 d hOk
      · calc getDigestLoop rs 0 5
            = getDigestLoop rs 1 4 := getDigestLoop_step rs 0 4 (hErr 0 (by omega))
          _ = getDigestLoop rs 2 3 := getDigestLoop_step rs 1 3 (hErr 1 (by omega))
          _ = getDigestLoop rs 3 2 := getDigestLoop_step rs 2 2 (hErr 2 (by omega))
          _ = getDigestLoop rs 4 1 := getDigestLoop_step rs 3 1 (hErr 3 (by omega))
          _ = getDigestLoop rs 5 0 := getDigestLoop_step rs 4 0 (hErr 4 (by omega))
          _ = ⟨.ret (d, none), 6, 5⟩ := getDigestLoop_ok rs 5 0 d hOk
    · intro _ hAll
      rw [hG]
      calc getDigestLoop rs 0 5
          = getDigestLoop rs 1 4 := getDigestLoop_step rs 0 4 (hAll 0 (by omega))
        _ = getDigestLoop rs 2 3 := getDigestLoop_step rs 1 3 (hAll 1 (by omega))
        _ = getDigestLoop rs 3 2 := getDigestLoop_step rs 2 2 (hAll 2 (by omega))
        _ = getDigestLoop rs 4 1 := getDigestLoop_step rs 3 1 (hAll 3 (by omega))
        _ = getDigestLoop rs 5 0 := getDigestLoop_step rs 4 0 (hAll 4 (by omega))
        _ = ⟨getDigest (rs 5), 6, 5⟩ := rfl

/-- Witness for C2: an engine answering 404 to every resolution query makes
GetImageDigest return the NotFound error after 6 attempts and 5 sleeps. -/
theorem getImageDigest_bounded_retry_witness :
    GetImageDigest okAddResp (fun _ => notFoundResp)
      = ⟨.ret ("", some errNotFound), 6, 5⟩ := by
  have h := (getImageDigest_bounded_retry okAddResp (fun _ => notFoundResp)).2.2.2
    rfl (fun i _ => by decide)
  rw [h]
  decide

/-- Claim C3: CheckImage is fail-closed. A GetImageDigest error is replaced by
the deny "Unable to obtain image digest"; a verdict-step error is returned as
a deny with that same error; and no combination of responses makes CheckImage
return true together with a non-nil error. -/
theorem checkImage_fail_closed (addResp : AddResp) (rs : Nat → DigestResp)
    (reportResp : ReportResp) :
    (∀ d e, (GetImageDigest addResp rs).result = .ret (d, some e) →
      CheckImage addResp rs reportResp = .ret (false, some "Unable to obtain image digest")) ∧
    (∀ d b e, (GetImageDigest addResp rs).result = .ret (d, none) →
      getStatus d reportResp = .ret (b, some e) →
      CheckImage addResp rs reportResp = .ret (false, some e)) ∧
    (∀ e, CheckImage addResp rs reportResp ≠ .ret (true, some e)) := by
  refine ⟨?_, ?_, ?_⟩
  · intro d e h
    simp [CheckImage, h]
  · intro d b e h hs
    have hb : b = false := getStatus_no_true_err d reportResp b e hs
    subst hb
    simp [CheckImage, h, hs]
  · intro e hc
    unfold CheckImage at hc
    cases hg : (GetImageDigest addResp rs).result with
    | panic m => rw [hg] at hc; exact absurd hc (by simp)
    | ret p =>
      obtain ⟨d, err⟩ := p
      rw [hg] at hc
      cases err with
      | some e2 => simp at hc
      | none =>
        have hb := getStatus_no_true_err d reportResp true e hc
        simp at hb

/-- Witness for C3: a failed registration (status 500) yields the digest deny
message. -/
theorem checkImage_fail_closed_witness :
    CheckImage (.response ⟨500, ()⟩) (fun _ => notFoundResp) (mkPassResp "pass")
      = .ret (false, some "Unable to obtain image digest") :=
  (checkImage_fail_closed (.response ⟨500, ()⟩) (fun _ => notFoundResp) (mkPassResp "pass")).1
    "" "response from Anchore: 500" (by decide)

/-- Claim C4 (spec-modelled Admission Evaluator): the pod is admitted iff
every image in declaration order passes its check; an admitted pod carries no
reason; for [A(pass), B(fail), C(pass)] the decision is Allowed=false with
B's reason; for [A(pass), B(pass)] it is Allowed=true with no reason. -/
theorem evaluatePod_all_pass (check : String → Bool × Option String) (images : List String) :
    ((evaluatePod check images).1 = true ↔ ∀ img ∈ images, (check img).1 = true) ∧
    ((evaluatePod check images).1 = true → evaluatePod check images = (true, none)) ∧
    (∀ a b c rB, check a = (true, none) → check b = (false, some rB) → check c = (true, none) →
      evaluatePod check [a, b, c] = (false, some rB)) ∧
    (∀ a b, check a = (true, none) → check b = (true, none) →
      evaluatePod check [a, b] = (true, none)) := by
  refine ⟨?_, ?_, ?_, ?_⟩
  · induction images with
    | nil => simp [evaluatePod]
    | cons img rest ih =>
      rcases hc : check img with ⟨allowed, reason⟩
      cases allowed with
      | true => simp [evaluatePod, hc, ih]
      | false =>
        simp only [evaluatePod, hc]
        constructor
        · intro h; simp at h
        · intro h
          have := h img (by simp)
          rw [hc] at this
          simp at this
  · induction images with
    | nil => intro _; rfl
    | cons img rest ih =>
      intro h
      rcases hc : check img with ⟨allowed, reason⟩
      cases allowed with
      | true => simp only [evaluatePod, hc] at h ⊢; exact ih h
      | false => simp [evaluatePod, hc] at h
  · intro a b c rB ha hb _
    simp [evaluatePod, ha, hb]
  · intro a b ha hb
    simp [evaluatePod, ha, hb]

/-- Witness for C4: with the concrete check table, ["A", "B", "C"] is denied
with B's reason and ["A", "C"] is allowed with no reason. -/
theorem evaluatePod_all_pass_witness :
    evaluatePod demoCheck ["A", "B", "C"] = (false, some "Scan result is FAILED") :=
  (evaluatePod_all_pass demoCheck ["A", "B", "C"]).2.2.1 "A" "B" "C"
    "Scan result is FAILED" rfl rfl rfl

/-- Claim C5 counterexample: the first resolution attempt fails with the
non-NotFound error "response from Anchore: 500", yet GetImageDigest does not
return that error to the caller: it retries and returns the second attempt's
digest, so non-NotFound resolution failures do trigger the retry behaviour. -/
theorem getImageDigest_retries_nonNotFound_cex :
    getDigest (rsRetryDemo 0) = .ret ("", some "response from Anchore: 500") ∧
    "response from Anchore: 500" ≠ errNotFound ∧
    GetImageDigest okAddResp rsRetryDemo = ⟨.ret ("sha256:abc", none), 2, 1⟩ := by
  refine ⟨by decide, by decide, by decide⟩

/-- Claim C5 amended: after registration succeeds, a failed resolution
attempt is retried after the 1-second sleep regardless of the error's kind
(NotFound or any other error return); only the attempt budget stops the
retrying. Here: any first-attempt error followed by a second-attempt success
yields the digest after 2 attempts and 1 sleep. -/
theorem getImageDigest_retries_any_error (addResp : AddResp) (rs : Nat → DigestResp)
    (d : String) (hAdd : addImage addResp = none)
    (h0 : isErrRet (getDigest (rs 0)) = true) (h1 : getDigest (rs 1) = .ret (d, none)) :
    GetImageDigest addResp rs = ⟨.ret (d, none), 2, 1⟩ := by
  have hG : GetImageDigest addResp rs = getDigestLoop rs 0 5 := by
    simp [GetImageDigest, hAdd]
  rw [hG]
  calc getDigestLoop rs 0 5
      = getDigestLoop rs 1 4 := getDigestLoop_step rs 0 4 h0
    _ = ⟨.ret (d, none), 2, 1⟩ := getDigestLoop_ok rs 1 4 d h1

/-- Witness for C5's amended theorem: a 500 first attempt followed by a
successful second attempt returns the digest after one retry. -/
theorem getImageDigest_retries_any_error_witness :
    GetImageDigest okAddResp rsRetryDemo = ⟨.ret ("sha256:abc", none), 2, 1⟩ :=
  getImageDigest_retries_any_error okAddResp rsRetryDemo "sha256:abc" rfl
    (by decide) (by decide)
